import Mathlib

/-!
# Verification of the 17-stage progressive medical-admission search

Shallow embedding of `new_api/app/services/ClickHouseMedicalSearchService.py`
(the relaxation cascade: input normalisation, ICD filters and scores, the
per-stage SQL filter/sort semantics, the driver loop) and of the request
validation in `app/controllers/MedicalSearchController.py` /
`app/schemas/searchSchema.py`.

Conventions of the embedding:
* SQL conditions interpolated into a query are embedded by their semantics as
  predicates over a stored row (string equality for `F = 'v'`, substring
  containment for `F LIKE '%v%'`), assuming the interpolated values contain
  no SQL wildcard or quote characters.
* ClickHouse `length`/`replace` on the code fields are embedded at the
  character level (`length` = character count, `replace(f, ';', '')` =
  dropping every `';'`), which coincides with the byte-level SQL semantics on
  one-byte characters.
* Python `datetime.date` subtraction is embedded through the proleptic
  Gregorian ordinal (`date.toordinal`), which is exact for the years ≥ 1 that
  `datetime` admits; Python integer division on the nonnegative quantities
  involved agrees with `Int.div`.
-/

/-- A calendar date as produced by Python's `datetime` parsing (year ≥ 1 for
every value `datetime` accepts; the time-of-day part of an admission datetime
is irrelevant to every computation modelled here and is omitted). -/
structure PDate where
  year : Int
  month : Nat
  day : Nat
  deriving DecidableEq, Repr

/-- Python tuple comparison `(a, b) < (c, d)`: lexicographic. -/
def pyPairLt (a b : Nat × Nat) : Bool :=
  a.1 < b.1 || (a.1 == b.1 && a.2 < b.2)

/-- Age at admission, from `_calculate_age_and_los` (lines 193–195):
`admission.year - birth.year`, minus 1 when
`(admission.month, admission.day) < (birth.month, birth.day)`. -/
def calculate_age (admission birth : PDate) : Int :=
  let base := admission.year - birth.year
  if pyPairLt (admission.month, admission.day) (birth.month, birth.day) then base - 1 else base

/-- Gregorian leap year, as in Python's `calendar.isleap` /
`datetime._is_leap`. -/
def isLeapYear (y : Int) : Bool :=
  y % 4 == 0 && (y % 100 != 0 || y % 400 == 0)

/-- Month lengths of a (leap or common) year. -/
def monthLengths (leap : Bool) : List Nat :=
  [31, if leap then 29 else 28, 31, 30, 31, 30, 31, 31, 30, 31, 30, 31]

/-- Days in the year strictly before month `m` (1-based). -/
def daysBeforeMonth (y : Int) (m : Nat) : Nat :=
  ((monthLengths (isLeapYear y)).take (m - 1)).foldl (· + ·) 0

/-- Python `date.toordinal`: day number in the proleptic Gregorian calendar,
with 0001-01-01 = ordinal 1.  `datetime.date` subtraction returns exactly the
difference of these ordinals, in days. -/
def toOrdinal (d : PDate) : Int :=
  let py := d.year - 1
  365 * py + py / 4 - py / 100 + py / 400 + (daysBeforeMonth d.year d.month : Int) + (d.day : Int)

/-- The calculated length of stay: either the explicit "unknown" sentinel
(Python uses the empty string `''`, a value distinct from the integer `0`) or
a whole number of days. -/
inductive LosValue where
  | unknown : LosValue
  | days (n : Int) : LosValue
  deriving DecidableEq, Repr

/-- Length-of-stay branch of `_calculate_age_and_los` (lines 197–203): the
empty/missing discharge date yields the `''` sentinel, otherwise the whole-day
difference `discharge.date() - admission.date()`. -/
def calculate_los (admission : PDate) (discharge : Option PDate) : LosValue :=
  match discharge with
  | none => .unknown
  | some d => .days (toOrdinal d - toOrdinal admission)

/-- Python `str(calculated_los)`: `str('') = ''`, `str(n)` the decimal
rendering. -/
def losToStr (los : LosValue) : String :=
  match los with
  | .unknown => ""
  | .days n => toString n

/-- Decimal digit-string parser over characters. -/
def charsToNatOpt (l : List Char) : Option Nat :=
  if l ≠ [] ∧ l.all (·.isDigit) then
    some (l.foldl (fun n c => n * 10 + (c.toNat - 48)) 0)
  else none

/-- A decimal integer literal parser: models Python `int(s)` and the parsing
part of ClickHouse `toInt32OrZero` on strings of an optional `-` sign
followed by digits (the only shapes arising here); anything else is `none`. -/
def strToIntOpt (s : String) : Option Int :=
  match s.data with
  | '-' :: rest => (charsToNatOpt rest).map (fun n => -(n : Int))
  | l => (charsToNatOpt l).map (fun n => (n : Int))

/-- ClickHouse `toInt32OrZero(s)`: the parsed integer, or 0 when `s` is not a
decimal integer literal. -/
def toInt32OrZero (s : String) : Int :=
  (strToIntOpt s).getD 0

/-- Semantics of `_get_los_diff_calculation` (lines 223–232) at a stored row
whose `LengthOfStay` column holds `stored`: the sort column `los_diff` is the
constant `0` when the input has no length of stay, and
`abs(toInt32OrZero(LengthOfStay) - calculated_los)` otherwise. -/
def los_diff_value (los : LosValue) (stored : String) : Int :=
  match los with
  | .unknown => 0
  | .days n => |toInt32OrZero stored - n|

/-- `build_exact_codes_string` (lines 84–89): the input codes joined, in the
input's given order, with `"; "` (the production delimiter chosen in the
source: `"; ".join(codes)`). -/
def build_exact_codes_string (codes : List String) : String :=
  if codes.isEmpty then "" else String.intercalate "; " codes

/-- Semantics of `stored LIKE '%code%'` for a wildcard-free `code`: `code`
occurs as a contiguous substring of `stored`. -/
def likeContains (stored code : String) : Bool :=
  decide (code.data <:+: stored.data)

/-- Semantics of the exact-mode ICD filter of `_calculate_icd_scores`
(lines 91–103) at a stored code field: `1=1` when no codes were requested,
otherwise `field = '<joined>'`. -/
def exact_icd_filter (codes : List String) (stored : String) : Bool :=
  if codes.isEmpty then true else stored == build_exact_codes_string codes

/-- Semantics of the partial-mode ICD filter (`OR` of `LIKE`s,
lines 109–121): `1=1` when no codes were requested, otherwise some input code
is a substring of the stored field. -/
def like_any_filter (codes : List String) (stored : String) : Bool :=
  if codes.isEmpty then true else codes.any (fun c => likeContains stored c)

/-- Number of `';'` characters in a string; `k` delimiters separate `k + 1`
delimited codes. -/
def semicolonCount (s : String) : Nat :=
  s.data.count ';'

/-- Semantics of `build_enhanced_score` (lines 70–82) at a stored code field:
`0` for an empty code list, otherwise the sum of the per-code `LIKE`
indicators plus the `-0.1` penalty when
`length(f) - length(replace(f, ';', '')) + 1` (the stored field's own
delimited-code count) exceeds the number of requested codes. -/
def build_enhanced_score (codes : List String) (stored : String) : ℚ :=
  if codes.isEmpty then 0
  else
    ((codes.map (fun c => if likeContains stored c then (1 : ℚ) else 0)).sum
      + (if stored.data.length - (stored.data.filter (· ≠ ';')).length + 1 > codes.length
          then -(1 / 10 : ℚ) else 0))

/-! ## Supporting lemmas -/

theorem count_semicolon_aux (l : List Char) :
    l.length - (l.filter (· ≠ ';')).length = l.count ';' := by
  have h1 : (l.filter (fun x => decide (x ≠ ';'))).length
      = l.countP (fun x => decide (x ≠ ';')) :=
    (List.countP_eq_length_filter _ _).symm
  have h2 := List.length_eq_countP_add_countP (fun x => decide (x ≠ ';')) l
  have h3 : l.countP (fun x => ¬ (decide (x ≠ ';') = true)) = l.count ';' := by
    rw [List.count_eq_countP]
    exact List.countP_congr (by intro a _; by_cases h : a = ';' <;> simp [h])
  omega

theorem semicolonCount_eq (s : String) :
    s.data.length - (s.data.filter (· ≠ ';')).length = semicolonCount s :=
  count_semicolon_aux s.data

theorem indicator_sum_eq_countP (codes : List String) (stored : String) :
    ((codes.map (fun c => if likeContains stored c then (1 : ℚ) else 0)).sum)
      = (codes.countP (fun c => likeContains stored c) : ℚ) := by
  induction codes with
  | nil => simp
  | cons c cs ih =>
    by_cases h : likeContains stored c
    · simp [h, ih, List.countP_cons]
      ring
    · simp [h, ih, List.countP_cons]

theorem pyPairLt_iff (a b : Nat × Nat) :
    pyPairLt a b = true ↔ (a.1 < b.1 ∨ (a.1 = b.1 ∧ a.2 < b.2)) := by
  simp [pyPairLt]

/-! ## Claims C4–C7 -/

/-- C4 (counterexample): the claim says the exact code-match filter accepts a
stored record whose code field equals the input codes joined with `";"`; but
the source joins with `"; "` (semicolon and space), so for input
`["A", "B"]` the stored field `"A;B"` — which *is* the `";"`-join — is
rejected: the generated condition compares against `"A; B"`. -/
theorem claim_C4_counterexample :
    String.intercalate ";" ["A", "B"] = "A;B"
    ∧ exact_icd_filter ["A", "B"] "A;B" = false
    ∧ build_exact_codes_string ["A", "B"] = "A; B" := by
  refine ⟨by decide, by decide, by decide⟩

/-- C4 (amended): for every non-empty input code list the exact code-match
filter accepts exactly the stored records whose code field equals the input
codes joined with `"; "` (semicolon followed by a space) in the input's given
order; in particular the match is order-sensitive: a record storing `"A; B"`
is accepted for input `["A", "B"]` but not for `["B", "A"]`. -/
theorem claim_C4_amended :
    (∀ (codes : List String) (stored : String), codes ≠ [] →
        (exact_icd_filter codes stored = true ↔ stored = String.intercalate "; " codes))
    ∧ (exact_icd_filter ["A", "B"] "A; B" = true
        ∧ exact_icd_filter ["B", "A"] "A; B" = false
        ∧ exact_icd_filter ["B", "A"] "B; A" = true) := by
  constructor
  · intro codes stored h
    have he : codes.isEmpty = false := by simpa [List.isEmpty_iff] using h
    simp [exact_icd_filter, build_exact_codes_string, he]
  · exact ⟨by decide, by decide, by decide⟩

/-- C5: in the partial/mixed scoring of `build_enhanced_score`, for every
non-empty input code list the per-family score is the count of input codes
individually occurring as substrings of the stored field, plus a `-0.1`
penalty exactly when the stored field's own `;`-delimited code count (number
of `';'` delimiters plus one) exceeds the number of requested codes; for an
empty code list the score is `0`. -/
theorem claim_C5 :
    (∀ (codes : List String) (stored : String), codes ≠ [] →
        build_enhanced_score codes stored
          = (codes.countP (fun c => likeContains stored c) : ℚ)
            + (if semicolonCount stored + 1 > codes.length then -(1 / 10 : ℚ) else 0))
    ∧ (∀ stored : String, build_enhanced_score [] stored = 0) := by
  constructor
  · intro codes stored h
    have he : codes.isEmpty = false := by simpa [List.isEmpty_iff] using h
    simp only [build_enhanced_score, he, Bool.false_eq_true, if_false]
    rw [indicator_sum_eq_countP, semicolonCount_eq]
  · intro stored
    rfl

/-- C6: for every parseable admission and birth date, the derived age equals
`admission.year - birth.year`, minus 1 exactly when
`(admission.month, admission.day)` is lexicographically below
`(birth.month, birth.day)`; birth 2000-03-10 gives age 19 at 2020-03-09 and
age 20 at 2020-03-10. -/
theorem claim_C6 :
    (∀ admission birth : PDate,
        calculate_age admission birth
          = admission.year - birth.year
            - (if admission.month < birth.month
                 ∨ (admission.month = birth.month ∧ admission.day < birth.day)
               then 1 else 0))
    ∧ calculate_age ⟨2020, 3, 9⟩ ⟨2000, 3, 10⟩ = 19
    ∧ calculate_age ⟨2020, 3, 10⟩ ⟨2000, 3, 10⟩ = 20 := by
  refine ⟨?_, by decide, by decide⟩
  intro admission birth
  simp only [calculate_age]
  by_cases hp : admission.month < birth.month
      ∨ (admission.month = birth.month ∧ admission.day < birth.day)
  · rw [if_pos ((pyPairLt_iff _ _).mpr hp), if_pos hp]
  · rw [if_neg (fun hb => hp ((pyPairLt_iff _ _).mp hb)), if_neg hp]
    ring

/-- C7: with a supplied discharge date the stay duration is the whole-day
difference of the calendar dates (2021-01-01 → 2021-01-04 gives 3); with no
discharge date it is the explicit unknown sentinel, which is distinct from a
zero-day stay, and the `los_diff` sort column it induces is the constant 0
for every stored row. -/
theorem claim_C7 :
    (∀ admission : PDate, calculate_los admission none = LosValue.unknown)
    ∧ calculate_los ⟨2021, 1, 1⟩ (some ⟨2021, 1, 4⟩) = LosValue.days 3
    ∧ LosValue.unknown ≠ LosValue.days 0
    ∧ (∀ stored : String, los_diff_value LosValue.unknown stored = 0) := by
  exact ⟨fun _ => rfl, by decide, by decide, fun _ => rfl⟩

/-! ## Stored rows, processed input, and the 17 stage queries -/

/-- One row of the admission table, restricted to the columns the 17 stage
queries reference in filters and sort keys.  `admissionId` is the first
column of every `SELECT *` result row. -/
structure Admission where
  admissionId : Int
  organizationCode : String
  payerName : String
  payerType : String
  primaryDoctor : String
  specialty : String
  region : String
  archetype : String
  diseaseClassification : String
  procedureClassification : String
  admissionTypeName : String
  sex : String
  anesthesiaDoctor : String
  anesthesiaType : String
  lengthOfStay : String
  birthDate : PDate
  admissionDate : PDate
  deriving DecidableEq, Repr

/-- The processed input dictionary as the step functions read it:
`input_data.get(k, '')` for the string criteria (an unsupplied field reads as
`''`), the code lists, the derived length of stay, and the parsed dates
behind `formatted_birth_date` / `formatted_admission_date`. -/
structure ProcessedInput where
  icd10 : List String
  icd9 : List String
  hospital_code : String
  payer_name : String
  payer_type : String
  primary_doctor : String
  doctor_specialty : String
  admission_type : String
  gender : String
  anesthesia_doctor : String
  anesthesia_type : String
  archetype : String
  hospital_region : String
  calculated_los : LosValue
  birthDate : PDate
  admissionDate : PDate
  deriving DecidableEq, Repr

/-- `_build_condition` (lines 241–245) as a predicate on the stored field:
the condition is omitted (vacuously true) when the input value is empty or
whitespace-only (`value.strip() == ""`, i.e. every character is whitespace),
and is the equality `field = 'value'` otherwise. -/
def build_condition (stored value : String) : Bool :=
  if value.data.all (·.isWhitespace) then true else stored == value

/-- The WHERE clause of stage `i` (`_step_1` … `_step_17`) as a predicate on
a stored row.  Stage 1 assembles its conditions through `_build_condition`
(empty inputs contribute nothing); stages 2–17 interpolate the raw input
values into equality conditions by f-string.  Stages 1–14 use exact ICD
filters, stage 15 uses partial ICD-10 with exact ICD-9, stage 16 exact ICD-9
only, stage 17 partial ICD-9 only.  The `NOT IN` exclusion clause is applied
separately in `step_rows`. -/
def step_filter (i : Nat) (inp : ProcessedInput) (r : Admission) : Bool :=
  match i with
  | 1 =>
      exact_icd_filter inp.icd10 r.diseaseClassification
      && exact_icd_filter inp.icd9 r.procedureClassification
      && build_condition r.organizationCode inp.hospital_code
      && build_condition r.payerName inp.payer_name
      && build_condition r.primaryDoctor inp.primary_doctor
      && build_condition r.lengthOfStay (losToStr inp.calculated_los)
      && build_condition r.admissionTypeName inp.admission_type
      && build_condition r.sex inp.gender
      && build_condition r.anesthesiaDoctor inp.anesthesia_doctor
      && build_condition r.anesthesiaType inp.anesthesia_type
  | 2 =>
      exact_icd_filter inp.icd10 r.diseaseClassification
      && exact_icd_filter inp.icd9 r.procedureClassification
      && r.organizationCode == inp.hospital_code
      && r.payerName == inp.payer_name
      && r.primaryDoctor == inp.primary_doctor
      && r.lengthOfStay == losToStr inp.calculated_los
      && r.admissionTypeName == inp.admission_type
      && r.sex == inp.gender
      && r.anesthesiaType == inp.anesthesia_type
  | 3 =>
      exact_icd_filter inp.icd10 r.diseaseClassification
      && exact_icd_filter inp.icd9 r.procedureClassification
      && r.organizationCode == inp.hospital_code
      && r.payerName == inp.payer_name
      && r.primaryDoctor == inp.primary_doctor
      && r.lengthOfStay == losToStr inp.calculated_los
      && r.admissionTypeName == inp.admission_type
      && r.sex == inp.gender
  | 4 =>
      exact_icd_filter inp.icd10 r.diseaseClassification
      && exact_icd_filter inp.icd9 r.procedureClassification
      && r.organizationCode == inp.hospital_code
      && r.payerName == inp.payer_name
      && r.primaryDoctor == inp.primary_doctor
      && r.lengthOfStay == losToStr inp.calculated_los
      && r.admissionTypeName == inp.admission_type
  | 5 | 6 =>
      exact_icd_filter inp.icd10 r.diseaseClassification
      && exact_icd_filter inp.icd9 r.procedureClassification
      && r.organizationCode == inp.hospital_code
      && r.payerName == inp.payer_name
      && r.primaryDoctor == inp.primary_doctor
  | 7 =>
      exact_icd_filter inp.icd10 r.diseaseClassification
      && exact_icd_filter inp.icd9 r.procedureClassification
      && r.organizationCode == inp.hospital_code
      && r.payerName == inp.payer_name
      && r.specialty == inp.doctor_specialty
  | 8 =>
      exact_icd_filter inp.icd10 r.diseaseClassification
      && exact_icd_filter inp.icd9 r.procedureClassification
      && r.organizationCode == inp.hospital_code
      && r.payerName == inp.payer_name
  | 9 =>
      exact_icd_filter inp.icd10 r.diseaseClassification
      && exact_icd_filter inp.icd9 r.procedureClassification
      && r.organizationCode == inp.hospital_code
      && r.payerType == inp.payer_type
  | 10 =>
      exact_icd_filter inp.icd10 r.diseaseClassification
      && exact_icd_filter inp.icd9 r.procedureClassification
      && r.organizationCode == inp.hospital_code
  | 11 | 12 =>
      exact_icd_filter inp.icd10 r.diseaseClassification
      && exact_icd_filter inp.icd9 r.procedureClassification
      && r.archetype == inp.archetype
  | 13 =>
      exact_icd_filter inp.icd10 r.diseaseClassification
      && exact_icd_filter inp.icd9 r.procedureClassification
      && r.region == inp.hospital_region
  | 14 =>
      exact_icd_filter inp.icd10 r.diseaseClassification
      && exact_icd_filter inp.icd9 r.procedureClassification
  | 15 =>
      like_any_filter inp.icd10 r.diseaseClassification
      && exact_icd_filter inp.icd9 r.procedureClassification
  | 16 =>
      exact_icd_filter inp.icd9 r.procedureClassification
  | 17 =>
      like_any_filter inp.icd9 r.procedureClassification
  | _ => false

/-- `abs(dateDiff('year', BirthDate, toDate('{formatted_birth_date}')))`:
ClickHouse `dateDiff('year', a, b)` counts crossed year boundaries,
`year(b) - year(a)`. -/
def age_diff_key (inp : ProcessedInput) (r : Admission) : ℚ :=
  ((inp.birthDate.year - r.birthDate.year).natAbs : ℚ)

/-- `abs(dateDiff('day', AdmissionDate, parseDateTime(...)))`: crossed day
boundaries, i.e. the calendar-date difference. -/
def date_diff_key (inp : ProcessedInput) (r : Admission) : ℚ :=
  ((toOrdinal inp.admissionDate - toOrdinal r.admissionDate).natAbs : ℚ)

def los_diff_key (inp : ProcessedInput) (r : Admission) : ℚ :=
  (los_diff_value inp.calculated_los r.lengthOfStay : ℚ)

/-- `CASE WHEN field = 'value' THEN 0 ELSE 1 END`. -/
def matchPrio (stored value : String) : ℚ :=
  if stored == value then 0 else 1

/-- The ORDER BY key tuple of stage `i` at a stored row, in clause order; a
`DESC` clause (the stage 15–17 score columns) is encoded by negating the
key. -/
def step_sort_keys (i : Nat) (inp : ProcessedInput) (r : Admission) : List ℚ :=
  match i with
  | 1 | 2 | 3 | 4 => [age_diff_key inp r, date_diff_key inp r]
  | 5 => [matchPrio r.sex inp.gender,
          age_diff_key inp r, los_diff_key inp r, date_diff_key inp r]
  | 6 | 7 | 8 =>
         [matchPrio r.admissionTypeName inp.admission_type,
          matchPrio r.sex inp.gender,
          age_diff_key inp r, los_diff_key inp r, date_diff_key inp r]
  | 9 | 10 =>
         [matchPrio r.primaryDoctor inp.primary_doctor,
          matchPrio r.admissionTypeName inp.admission_type,
          matchPrio r.sex inp.gender,
          age_diff_key inp r, los_diff_key inp r, date_diff_key inp r]
  | 11 =>
         [matchPrio r.payerName inp.payer_name,
          matchPrio r.payerType inp.payer_type,
          matchPrio r.primaryDoctor inp.primary_doctor,
          matchPrio r.admissionTypeName inp.admission_type,
          matchPrio r.sex inp.gender,
          age_diff_key inp r, los_diff_key inp r, date_diff_key inp r]
  | 12 | 13 =>
         [matchPrio r.primaryDoctor inp.primary_doctor,
          matchPrio r.admissionTypeName inp.admission_type,
          matchPrio r.sex inp.gender,
          age_diff_key inp r, los_diff_key inp r, date_diff_key inp r]
  | 14 =>
         [matchPrio r.organizationCode inp.hospital_code,
          matchPrio r.region inp.hospital_region,
          matchPrio r.archetype inp.archetype,
          matchPrio r.primaryDoctor inp.primary_doctor,
          matchPrio r.admissionTypeName inp.admission_type,
          matchPrio r.sex inp.gender,
          age_diff_key inp r, los_diff_key inp r, date_diff_key inp r]
  | 15 =>
         [-(build_enhanced_score inp.icd9 r.procedureClassification),
          -(build_enhanced_score inp.icd10 r.diseaseClassification),
          age_diff_key inp r, los_diff_key inp r, date_diff_key inp r]
  | 16 =>
         [-(if inp.icd9.isEmpty then (0 : ℚ) else 1),
          age_diff_key inp r, los_diff_key inp r, date_diff_key inp r]
  | 17 =>
         [-(build_enhanced_score inp.icd9 r.procedureClassification),
          age_diff_key inp r, los_diff_key inp r, date_diff_key inp r]
  | _ => []

/-- Lexicographic comparison of ORDER BY key tuples (all clauses ascending
after the DESC negation encoding). -/
def lexLe : List ℚ → List ℚ → Bool
  | [], _ => true
  | _ :: _, [] => false
  | a :: as, b :: bs => if a < b then true else if b < a then false else lexLe as bs

/-- One row a stage query returns: the `SELECT *` admission columns
(`result[0]` is the AdmissionId) and, as last column, the `'STEP_i'` literal
selected `as result_step` (`result[-1]`).  The intermediate computed numeric
columns are consumed only by the stage's own ORDER BY, applied inside
`step_rows`. -/
structure ResultRow where
  admission : Admission
  result_step : String
  deriving DecidableEq, Repr

/-- The rows stage `i` returns over a database `db` of stored rows: the rows
satisfying the stage's WHERE clause — stages 2–17 also carry
`_get_exclusion_clause`'s `AdmissionId NOT IN (found)` (lines 234–239; the
clause is omitted when the set is empty, which filters identically to the
empty set) — ordered by the stage's ORDER BY and truncated by `LIMIT 50`,
each tagged `'STEP_i'`. -/
def step_rows (db : List Admission) (inp : ProcessedInput) (i : Nat)
    (found : Finset Int) : List ResultRow :=
  let base := db.filter (fun r => step_filter i inp r)
  let pool := if i = 1 then base
              else base.filter (fun r => decide (r.admissionId ∉ found))
  ((pool.mergeSort (fun a b => lexLe (step_sort_keys i inp a) (step_sort_keys i inp b))).take
      50).map (fun r => { admission := r, result_step := "STEP_" ++ toString i })

/-! ## The relaxation driver -/

/-- The driver's mutable search state: `self.found_admission_ids` and
`self.results`. -/
structure SearchState where
  found_admission_ids : Finset Int
  results : List ResultRow
  deriving DecidableEq

/-- One stage execution either yields rows or raises; `Except.error` is the
case the driver's `try/except` catches (the inner `_execute_query` handler,
lines 882–893, instead converts a query failure into `[]`, which the driver
treats identically: nothing is accumulated and the cascade continues). -/
abbrev StepOutcome := Except Unit (List ResultRow)

/-- `self.found_admission_ids.add(result[0])` over a stage's rows
(lines 316–317). -/
def addIds (rows : List ResultRow) (s : Finset Int) : Finset Int :=
  rows.foldl (fun acc r => insert r.admission.admissionId acc) s

/-- The driver's handling of one stage outcome (lines 310–322): a failure is
logged and skipped, an empty row list changes nothing, and otherwise the rows
are appended to `results` and their first columns added to the found set. -/
def step_update (st : SearchState) (outcome : StepOutcome) : SearchState :=
  match outcome with
  | .error _ => st
  | .ok rows =>
      if rows.isEmpty then st
      else { found_admission_ids := addIds rows st.found_admission_ids,
             results := st.results ++ rows }

/-- The driver loop of `search_similar_admissions` (lines 305–322) over the
remaining stage ordinals, instrumented with the invocation trace: one entry
`(i, results-before-the-query)` per stage actually queried.  The `break`
fires before a stage runs once `len(self.results) >= max_results`. -/
def run_steps (stepFn : Nat → Finset Int → StepOutcome) (maxResults : Nat) :
    List Nat → SearchState → SearchState × List (Nat × List ResultRow)
  | [], st => (st, [])
  | i :: rest, st =>
    if maxResults ≤ st.results.length then (st, [])
    else
      let st' := step_update st (stepFn i st.found_admission_ids)
      let out := run_steps stepFn maxResults rest st'
      (out.1, (i, st.results) :: out.2)

/-- Python `str.split(sep)` for a one-character separator, over the
character list. -/
def splitOnChar (c : Char) : List Char → List (List Char)
  | [] => [[]]
  | x :: xs =>
    match splitOnChar c xs with
    | [] => [[]]
    | seg :: rest => if x = c then [] :: seg :: rest else (x :: seg) :: rest

/-- `get_step_number` (lines 328–335) on a row's last column: the integer
parsed from `step_str.split('_')[1]` when the tag starts with `STEP_`, and
999 when it does not, the split has no second part, or that part is not an
integer literal. -/
def get_step_number (s : String) : Int :=
  if ("STEP_".data).isPrefixOf s.data then
    match ((splitOnChar '_' s.data).get? 1).bind (fun seg => strToIntOpt (String.mk seg)) with
    | some n => n
    | none => 999
  else 999

def row_step_number (r : ResultRow) : Int :=
  get_step_number r.result_step

/-- The key order of the final `final_results.sort(key=get_step_number)`. -/
def finalLe (a b : ResultRow) : Bool :=
  decide (row_step_number a ≤ row_step_number b)

/-- The accumulated `self.results` after the driver loop of a fresh search
(state reset to `(set(), [])`, stages 1–17). -/
def accumulated_results (stepFn : Nat → Finset Int → StepOutcome)
    (maxResults : Nat) : List ResultRow :=
  ((run_steps stepFn maxResults (List.range' 1 17) ⟨∅, []⟩).1).results

/-- The stage-invocation trace of a fresh search. -/
def search_trace (stepFn : Nat → Finset Int → StepOutcome)
    (maxResults : Nat) : List (Nat × List ResultRow) :=
  (run_steps stepFn maxResults (List.range' 1 17) ⟨∅, []⟩).2

/-- `search_similar_admissions` (lines 287–338): walk stages 1–17 from a
reset state, cap the accumulated results at `max_results`, and sort the kept
rows by originating step number.  Python's `list.sort` is stable, as is
`List.mergeSort`. -/
def search_similar_admissions (stepFn : Nat → Finset Int → StepOutcome)
    (maxResults : Nat) : List ResultRow :=
  ((accumulated_results stepFn maxResults).take maxResults).mergeSort finalLe

/-- The executor instantiated with the concrete stage queries over a database
`db` of stored rows. -/
def ch_step_fn (db : List Admission) (inp : ProcessedInput) :
    Nat → Finset Int → StepOutcome :=
  fun i found => .ok (step_rows db inp i found)

/-- The whole search against a concrete database. -/
def clickhouse_search (db : List Admission) (inp : ProcessedInput)
    (maxResults : Nat) : List ResultRow :=
  search_similar_admissions (ch_step_fn db inp) maxResults

/-! ## Claim C1: no duplicate admission identifier in the outcome -/

theorem subset_addIds (rows : List ResultRow) (s : Finset Int) : s ⊆ addIds rows s := by
  induction rows generalizing s with
  | nil => exact fun x hx => hx
  | cons r rs ih =>
    intro x hx
    exact ih (insert r.admission.admissionId s) (Finset.mem_insert_of_mem hx)

theorem mem_addIds_of_mem (rows : List ResultRow) (s : Finset Int) (r : ResultRow)
    (hr : r ∈ rows) : r.admission.admissionId ∈ addIds rows s := by
  induction rows generalizing s with
  | nil => cases hr
  | cons a rs ih =>
    rcases List.mem_cons.mp hr with rfl | hr'
    · exact subset_addIds rs _ (Finset.mem_insert_self _ _)
    · exact ih _ hr'

theorem step_rows_ids_eq (db : List Admission) (inp : ProcessedInput) (i : Nat)
    (found : Finset Int) :
    ∃ pool : List Admission,
      List.Sublist pool db
      ∧ (i ≠ 1 → ∀ a ∈ pool, a.admissionId ∉ found)
      ∧ (step_rows db inp i found).map (fun r => r.admission.admissionId)
          = (((pool.mergeSort
                (fun a b => lexLe (step_sort_keys i inp a) (step_sort_keys i inp b))).take
              50).map (fun a => a.admissionId)) := by
  by_cases hi : i = 1
  · refine ⟨db.filter (fun r => step_filter i inp r), List.filter_sublist db,
      fun h => absurd hi h, ?_⟩
    simp [step_rows, hi, List.map_take, List.map_map]
    rfl
  · refine ⟨(db.filter (fun r => step_filter i inp r)).filter
        (fun r => decide (r.admissionId ∉ found)),
      (List.filter_sublist _).trans (List.filter_sublist db), ?_, ?_⟩
    · intro _ a ha
      simpa using (List.mem_filter.mp ha).2
    · simp [step_rows, hi, List.map_take, List.map_map]
      rfl

theorem step_rows_ids_nodup (db : List Admission) (inp : ProcessedInput) (i : Nat)
    (found : Finset Int) (hdb : (db.map (fun r => r.admissionId)).Nodup) :
    ((step_rows db inp i found).map (fun r => r.admission.admissionId)).Nodup := by
  obtain ⟨pool, hsub, -, heq⟩ := step_rows_ids_eq db inp i found
  rw [heq]
  have h1 : (pool.map (fun a => a.admissionId)).Nodup :=
    List.Nodup.sublist (hsub.map _) hdb
  have h2 : ((pool.mergeSort
      (fun a b => lexLe (step_sort_keys i inp a) (step_sort_keys i inp b))).map
        (fun a => a.admissionId)).Nodup :=
    (((List.mergeSort_perm pool _).map (fun a => a.admissionId)).nodup_iff).mpr h1
  exact List.Nodup.sublist ((List.take_sublist _ _).map _) h2

theorem step_rows_excluded (db : List Admission) (inp : ProcessedInput) (i : Nat)
    (found : Finset Int) (hi : i ≠ 1) :
    ∀ r ∈ step_rows db inp i found, r.admission.admissionId ∉ found := by
  intro r hr
  unfold step_rows at hr
  simp only [hi, if_false] at hr
  rcases List.mem_map.mp hr with ⟨a, ha, rfl⟩
  have ha' := List.mem_mergeSort.mp (List.mem_of_mem_take ha)
  simpa using (List.mem_filter.mp ha').2

/-- The driver invariant: accumulated result identifiers are pairwise
distinct and all recorded in the found set. -/
def StateInv (st : SearchState) : Prop :=
  ((st.results.map (fun r => r.admission.admissionId)).Nodup)
  ∧ ∀ r ∈ st.results, r.admission.admissionId ∈ st.found_admission_ids

theorem step_update_inv (db : List Admission) (inp : ProcessedInput) (i : Nat)
    (st : SearchState) (hst : StateInv st)
    (hdb : (db.map (fun r => r.admissionId)).Nodup) (hi : i ≠ 1) :
    StateInv (step_update st (ch_step_fn db inp i st.found_admission_ids)) := by
  show StateInv (step_update st (.ok (step_rows db inp i st.found_admission_ids)))
  simp only [step_update]
  split
  · exact hst
  · constructor
    · rw [List.map_append]
      rw [List.nodup_append]
      refine ⟨hst.1, step_rows_ids_nodup db inp i _ hdb, ?_⟩
      intro x hx1 hx2
      rcases List.mem_map.mp hx1 with ⟨r, hr, rfl⟩
      rcases List.mem_map.mp hx2 with ⟨r', hr', hid⟩
      have hin : r.admission.admissionId ∈ st.found_admission_ids := hst.2 r hr
      have hout : r'.admission.admissionId ∉ st.found_admission_ids :=
        step_rows_excluded db inp i _ hi r' hr'
      exact hout (hid ▸ hin)
    · intro r hr
      rcases List.mem_append.mp hr with hr' | hr'
      · exact subset_addIds _ _ (hst.2 r hr')
      · exact mem_addIds_of_mem _ _ r hr'

theorem run_steps_inv (db : List Admission) (inp : ProcessedInput) (maxResults : Nat)
    (l : List Nat) (hl : ∀ j ∈ l, j ≠ 1) (st : SearchState) (hst : StateInv st)
    (hdb : (db.map (fun r => r.admissionId)).Nodup) :
    StateInv ((run_steps (ch_step_fn db inp) maxResults l st).1) := by
  induction l generalizing st with
  | nil => exact hst
  | cons i rest ih =>
    rw [run_steps]
    by_cases hb : maxResults ≤ st.results.length
    · rw [if_pos hb]
      exact hst
    · rw [if_neg hb]
      exact ih (fun j hj => hl j (List.mem_cons_of_mem _ hj)) _
        (step_update_inv db inp i st hst hdb (hl i (List.mem_cons_self _ _)))

theorem accumulated_results_nodup (db : List Admission) (inp : ProcessedInput)
    (maxResults : Nat) (hdb : (db.map (fun r => r.admissionId)).Nodup) :
    ((accumulated_results (ch_step_fn db inp) maxResults).map
        (fun r => r.admission.admissionId)).Nodup := by
  have h17 : List.range' 1 17 = 1 :: List.range' 2 16 := rfl
  unfold accumulated_results
  rw [h17, run_steps]
  have hinit : StateInv (⟨∅, []⟩ : SearchState) :=
    ⟨List.nodup_nil, fun r hr => absurd hr (List.not_mem_nil r)⟩
  have hst1 : StateInv (step_update ⟨∅, []⟩ (ch_step_fn db inp 1 ∅)) := by
    show StateInv (step_update ⟨∅, []⟩ (.ok (step_rows db inp 1 ∅)))
    simp only [step_update]
    split
    · exact hinit
    · constructor
      · simpa using step_rows_ids_nodup db inp 1 ∅ hdb
      · intro r hr
        simp only [List.nil_append] at hr
        exact mem_addIds_of_mem _ _ r hr
  have hge : ∀ j ∈ List.range' 2 16, j ≠ 1 := by
    intro j hj
    rcases List.mem_range'.mp hj with ⟨k, hk, rfl⟩
    omega
  split
  · simp
  · exact (run_steps_inv db inp maxResults (List.range' 2 16) hge _ hst1 hdb).1

/-- C1: every stage after the first filters already-found admission
identifiers out of its candidate pool (`_get_exclusion_clause`), and for
every database whose rows carry pairwise-distinct AdmissionIds, every search
criteria and every requested maximum, the final outcome of
`search_similar_admissions` never contains two results with the same
admission identifier. -/
theorem claim_C1 :
    (∀ (db : List Admission) (inp : ProcessedInput) (i : Nat) (found : Finset Int),
        i ≠ 1 → ∀ r ∈ step_rows db inp i found, r.admission.admissionId ∉ found)
    ∧ (∀ (db : List Admission) (inp : ProcessedInput) (maxResults : Nat),
        (db.map (fun r => r.admissionId)).Nodup →
          ((clickhouse_search db inp maxResults).map
              (fun r => r.admission.admissionId)).Nodup) := by
  constructor
  · intro db inp i found hi
    exact step_rows_excluded db inp i found hi
  · intro db inp maxResults hdb
    unfold clickhouse_search search_similar_admissions
    have hres := accumulated_results_nodup db inp maxResults hdb
    have htake : (((accumulated_results (ch_step_fn db inp) maxResults).take
        maxResults).map (fun r => r.admission.admissionId)).Nodup := by
      rw [List.map_take]
      exact List.Nodup.sublist (List.take_sublist _ _) hres
    have hperm := (List.mergeSort_perm
      ((accumulated_results (ch_step_fn db inp) maxResults).take maxResults)
        finalLe).map (fun r => r.admission.admissionId)
    exact (hperm.nodup_iff).mpr htake

/-! ## Claim C2: no stage query once the threshold is reached -/

theorem run_steps_trace_entry_lt (stepFn : Nat → Finset Int → StepOutcome)
    (maxResults : Nat) :
    ∀ (l : List Nat) (st : SearchState),
      ∀ e ∈ (run_steps stepFn maxResults l st).2, e.2.length < maxResults := by
  intro l
  induction l with
  | nil => intro st e he; cases he
  | cons i rest ih =>
    intro st e he
    rw [run_steps] at he
    by_cases hb : maxResults ≤ st.results.length
    · rw [if_pos hb] at he
      cases he
    · rw [if_neg hb] at he
      rcases List.mem_cons.mp he with rfl | he'
      · simp only []
        omega
      · exact ih _ e he'

theorem run_steps_trace_stages (stepFn : Nat → Finset Int → StepOutcome)
    (maxResults : Nat) :
    ∀ (l : List Nat) (st : SearchState),
      (run_steps stepFn maxResults l st).2.map Prod.fst
        = l.take ((run_steps stepFn maxResults l st).2).length := by
  intro l
  induction l with
  | nil => intro st; rfl
  | cons i rest ih =>
    intro st
    rw [run_steps]
    by_cases hb : maxResults ≤ st.results.length
    · rw [if_pos hb]
      rfl
    · rw [if_neg hb]
      simp only [List.map_cons, List.length_cons, List.take_succ_cons]
      rw [ih]

/-- C2: the driver queries a stage only while the accumulated distinct
matches are still below the requested maximum — every entry of the
invocation trace records strictly fewer than `max_results` accumulated
distinct identifiers at the moment of the query — and the invoked stages
form a prefix of the ordered stage list 1–17. -/
theorem claim_C2 :
    (∀ (stepFn : Nat → Finset Int → StepOutcome) (maxResults : Nat),
        ∀ e ∈ search_trace stepFn maxResults,
          ((e.2.map (fun r => r.admission.admissionId)).dedup).length < maxResults)
    ∧ (∀ (stepFn : Nat → Finset Int → StepOutcome) (maxResults : Nat),
        (search_trace stepFn maxResults).map Prod.fst
          = (List.range' 1 17).take (search_trace stepFn maxResults).length) := by
  constructor
  · intro stepFn maxResults e he
    have hlen := run_steps_trace_entry_lt stepFn maxResults (List.range' 1 17) ⟨∅, []⟩ e he
    have hdedup := (List.dedup_sublist (e.2.map (fun r => r.admission.admissionId))).length_le
    have hmap := List.length_map e.2 (fun r => r.admission.admissionId)
    omega
  · intro stepFn maxResults
    exact run_steps_trace_stages stepFn maxResults (List.range' 1 17) ⟨∅, []⟩

/-! ## Claim C3: the final sort is stable and by ascending stage ordinal -/

theorem finalLe_trans : ∀ (a b c : ResultRow), finalLe a b → finalLe b c → finalLe a c := by
  intro a b c hab hbc
  simp only [finalLe, decide_eq_true_iff] at *
  omega

theorem finalLe_total : ∀ (a b : ResultRow), finalLe a b || finalLe b a := by
  intro a b
  simp only [finalLe, Bool.or_eq_true, decide_eq_true_iff]
  omega

theorem mergeSort_step_filter_eq (l : List ResultRow) (n : Int) :
    (l.mergeSort finalLe).filter (fun r => row_step_number r == n)
      = l.filter (fun r => row_step_number r == n) := by
  have hmem : ∀ r ∈ l.filter (fun r => row_step_number r == n), row_step_number r = n := by
    intro r hr
    simpa using (List.mem_filter.mp hr).2
  have hpw : (l.filter (fun r => row_step_number r == n)).Pairwise
      (fun a b => finalLe a b) := by
    refine List.pairwise_of_forall_mem_list ?_
    intro a ha b hb
    simp [finalLe, hmem a ha, hmem b hb]
  have hsub : List.Sublist (l.filter (fun r => row_step_number r == n))
      (l.mergeSort finalLe) :=
    List.sublist_mergeSort finalLe_trans finalLe_total hpw (List.filter_sublist l)
  have hself : (l.filter (fun r => row_step_number r == n)).filter
      (fun r => row_step_number r == n) = l.filter (fun r => row_step_number r == n) :=
    List.filter_eq_self.mpr (fun a ha => (List.mem_filter.mp ha).2)
  have h1 := hsub.filter (fun r => row_step_number r == n)
  rw [hself] at h1
  have hlen : ((l.mergeSort finalLe).filter (fun r => row_step_number r == n)).length
      = (l.filter (fun r => row_step_number r == n)).length :=
    ((List.mergeSort_perm l finalLe).filter _).length_eq
  exact (h1.eq_of_length hlen.symm).symm

/-- C3: the final outcome is the accumulated matches capped at the requested
maximum, sorted by originating stage ordinal ascending with a stable sort:
the outcome is a permutation of the capped accumulation, it is sorted by
step number, and for every stage the outcome's subsequence of that stage's
rows equals the capped accumulation's subsequence — the relative order
produced by the stage's own sort is preserved.  The step number parsed from
the tag `'STEP_i'` is `i` for each of the 17 stage ordinals. -/
theorem claim_C3 :
    (∀ (stepFn : Nat → Finset Int → StepOutcome) (maxResults : Nat),
        (search_similar_admissions stepFn maxResults).Pairwise
          (fun a b => row_step_number a ≤ row_step_number b))
    ∧ (∀ (stepFn : Nat → Finset Int → StepOutcome) (maxResults : Nat),
        (search_similar_admissions stepFn maxResults).Perm
          ((accumulated_results stepFn maxResults).take maxResults))
    ∧ (∀ (stepFn : Nat → Finset Int → StepOutcome) (maxResults : Nat) (n : Int),
        (search_similar_admissions stepFn maxResults).filter
            (fun r => row_step_number r == n)
          = ((accumulated_results stepFn maxResults).take maxResults).filter
              (fun r => row_step_number r == n))
    ∧ (∀ i ∈ List.range' 1 17, get_step_number ("STEP_" ++ toString i) = (i : Int)) := by
  refine ⟨?_, ?_, ?_, by decide⟩
  · intro stepFn maxResults
    have h := List.sorted_mergeSort finalLe_trans finalLe_total
      ((accumulated_results stepFn maxResults).take maxResults)
    exact h.imp (by intro a b hab; simpa [finalLe] using hab)
  · intro stepFn maxResults
    exact List.mergeSort_perm _ finalLe
  · intro stepFn maxResults n
    exact mergeSort_step_filter_eq _ n

/-! ## Claim C8: a failing stage is contained -/

theorem run_steps_error_eq_empty (stepFn : Nat → Finset Int → StepOutcome) (i0 : Nat)
    (maxResults : Nat) (hf : ∀ found, stepFn i0 found = .error ()) :
    ∀ (l : List Nat) (st : SearchState),
      run_steps stepFn maxResults l st
        = run_steps (fun j found => if j = i0 then Except.ok [] else stepFn j found)
            maxResults l st := by
  intro l
  induction l with
  | nil => intro st; rfl
  | cons i rest ih =>
    intro st
    rw [run_steps, run_steps]
    by_cases hb : maxResults ≤ st.results.length
    · rw [if_pos hb, if_pos hb]
    · rw [if_neg hb, if_neg hb]
      have hstep : step_update st (stepFn i st.found_admission_ids)
          = step_update st
              (if i = i0 then Except.ok [] else stepFn i st.found_admission_ids) := by
        by_cases hj : i = i0
        · subst hj
          rw [hf st.found_admission_ids, if_pos rfl]
          rfl
        · rw [if_neg hj]
      simp only [hstep, ih]

/-- A minimal stored row carrying only an identifier. -/
def demo_admission (n : Int) : Admission :=
  { admissionId := n, organizationCode := "", payerName := "", payerType := "",
    primaryDoctor := "", specialty := "", region := "", archetype := "",
    diseaseClassification := "", procedureClassification := "", admissionTypeName := "",
    sex := "", anesthesiaDoctor := "", anesthesiaType := "", lengthOfStay := "",
    birthDate := ⟨2000, 1, 1⟩, admissionDate := ⟨2020, 1, 1⟩ }

/-- Three stage-7 result rows. -/
def step7_demo_rows : List ResultRow :=
  [⟨demo_admission 101, "STEP_7"⟩, ⟨demo_admission 102, "STEP_7"⟩,
   ⟨demo_admission 103, "STEP_7"⟩]

/-- An executor whose stage 6 raises, whose stage 7 returns three rows, and
whose other stages return nothing. -/
def fail6_step_fn : Nat → Finset Int → StepOutcome :=
  fun i _ => if i = 6 then .error () else if i = 7 then .ok step7_demo_rows else .ok []

/-- C8: a stage execution failure is contained — replacing the failing
stage's outcome by an empty success changes neither the driver state, nor
the invocation trace (the cascade still proceeds to the following stages),
nor the final outcome; concretely, when stage 6 fails and stage 7 succeeds
with 3 matches while all other stages are empty, the outcome is exactly
those 3 matches tagged `STEP_7`. -/
theorem claim_C8 :
    (∀ (stepFn : Nat → Finset Int → StepOutcome) (i0 : Nat) (maxResults : Nat),
        (∀ found, stepFn i0 found = .error ()) →
          search_trace stepFn maxResults
              = search_trace
                  (fun j found => if j = i0 then Except.ok [] else stepFn j found)
                  maxResults
            ∧ search_similar_admissions stepFn maxResults
                = search_similar_admissions
                    (fun j found => if j = i0 then Except.ok [] else stepFn j found)
                    maxResults)
    ∧ search_similar_admissions fail6_step_fn 50 = step7_demo_rows := by
  constructor
  · intro stepFn i0 maxResults hf
    have h := run_steps_error_eq_empty stepFn i0 maxResults hf (List.range' 1 17) ⟨∅, []⟩
    constructor
    · unfold search_trace
      rw [h]
    · unfold search_similar_admissions accumulated_results
      rw [h]
  · have hacc : accumulated_results fail6_step_fn 50 = step7_demo_rows := by decide
    unfold search_similar_admissions
    rw [hacc]
    rw [show step7_demo_rows.take 50 = step7_demo_rows from by decide]
    exact List.mergeSort_of_sorted (by decide)

/-! ## Claim C10: stages 2–13 interpolate empty criteria into equalities -/

/-- C10: in stages 2–13 every non-code criteria field the stage filters on is
interpolated into an equality even when the input value is unsupplied (read
as `''`), so those stages only accept records whose stored field is the empty
string; stage 1 alone omits conditions for empty values — with every
non-code field unsupplied its WHERE clause reduces to the two code filters
alone. -/
theorem claim_C10 :
    (∀ (inp : ProcessedInput) (r : Admission),
        inp.hospital_code = "" → inp.payer_name = "" → inp.primary_doctor = "" →
        inp.calculated_los = LosValue.unknown → inp.admission_type = "" →
        inp.gender = "" → inp.anesthesia_doctor = "" → inp.anesthesia_type = "" →
        step_filter 1 inp r
          = (exact_icd_filter inp.icd10 r.diseaseClassification
              && exact_icd_filter inp.icd9 r.procedureClassification))
    ∧ (∀ i ∈ [2, 3, 4, 5, 6, 7, 8, 9, 10], ∀ (inp : ProcessedInput) (r : Admission),
        inp.hospital_code = "" → step_filter i inp r = true → r.organizationCode = "")
    ∧ (∀ i ∈ [2, 3, 4, 5, 6, 7, 8], ∀ (inp : ProcessedInput) (r : Admission),
        inp.payer_name = "" → step_filter i inp r = true → r.payerName = "")
    ∧ (∀ i ∈ [2, 3, 4, 5, 6], ∀ (inp : ProcessedInput) (r : Admission),
        inp.primary_doctor = "" → step_filter i inp r = true → r.primaryDoctor = "")
    ∧ (∀ i ∈ [2, 3, 4], ∀ (inp : ProcessedInput) (r : Admission),
        inp.calculated_los = LosValue.unknown → step_filter i inp r = true →
          r.lengthOfStay = "")
    ∧ (∀ i ∈ [2, 3, 4], ∀ (inp : ProcessedInput) (r : Admission),
        inp.admission_type = "" → step_filter i inp r = true → r.admissionTypeName = "")
    ∧ (∀ i ∈ [2, 3], ∀ (inp : ProcessedInput) (r : Admission),
        inp.gender = "" → step_filter i inp r = true → r.sex = "")
    ∧ (∀ (inp : ProcessedInput) (r : Admission),
        inp.anesthesia_type = "" → step_filter 2 inp r = true → r.anesthesiaType = "")
    ∧ (∀ (inp : ProcessedInput) (r : Admission),
        inp.doctor_specialty = "" → step_filter 7 inp r = true → r.specialty = "")
    ∧ (∀ (inp : ProcessedInput) (r : Admission),
        inp.payer_type = "" → step_filter 9 inp r = true → r.payerType = "")
    ∧ (∀ i ∈ [11, 12], ∀ (inp : ProcessedInput) (r : Admission),
        inp.archetype = "" → step_filter i inp r = true → r.archetype = "")
    ∧ (∀ (inp : ProcessedInput) (r : Admission),
        inp.hospital_region = "" → step_filter 13 inp r = true → r.region = "") := by
  refine ⟨?_, ?_, ?_, ?_, ?_, ?_, ?_, ?_, ?_, ?_, ?_, ?_⟩
  · intro inp r h1 h2 h3 h4 h5 h6 h7 h8
    simp [step_filter, build_condition, losToStr, h1, h2, h3, h4, h5, h6, h7, h8]
  · intro i hi inp r he hf
    fin_cases hi <;> (simp [step_filter, he] at hf; tauto)
  · intro i hi inp r he hf
    fin_cases hi <;> (simp [step_filter, he] at hf; tauto)
  · intro i hi inp r he hf
    fin_cases hi <;> (simp [step_filter, he] at hf; tauto)
  · intro i hi inp r he hf
    fin_cases hi <;> (simp [step_filter, he, losToStr] at hf; tauto)
  · intro i hi inp r he hf
    fin_cases hi <;> (simp [step_filter, he] at hf; tauto)
  · intro i hi inp r he hf
    fin_cases hi <;> (simp [step_filter, he] at hf; tauto)
  · intro inp r he hf
    simp [step_filter, he] at hf
    tauto
  · intro inp r he hf
    simp [step_filter, he] at hf
    tauto
  · intro inp r he hf
    simp [step_filter, he] at hf
    tauto
  · intro i hi inp r he hf
    fin_cases hi <;> (simp [step_filter, he] at hf; tauto)
  · intro inp r he hf
    simp [step_filter, he] at hf
    tauto

/-! ## Claim C9: request validation before the cascade -/

/-- A `UnifiedSearchRequest` (searchSchema.py lines 17–46), restricted to the
fields `_extract_structured_data` and `validate_unified_fields` read. -/
structure URequest where
  query : Option String
  class_id : Option String
  class_name : Option String
  hospital_code : Option String
  hospital_name : Option String
  archetype : Option String
  hospital_region : Option String
  birthdate : Option String
  gender : Option String
  icd10 : Option (List String)
  icd9 : Option (List String)
  primary_doctor : Option String
  admission_type : Option String
  admission_date : Option String
  discharge_date : Option String
  anesthesia_doctor : Option String
  anesthesia_type : Option String
  surgery_nature : Option String
  payer_type : Option String
  payer_name : Option String
  deriving DecidableEq, Repr

/-- Python truthiness of an optional string: `None` and `''` are falsy. -/
def optStrTruthy : Option String → Bool
  | none => false
  | some s => !(s == "")

/-- Python truthiness of an optional string list: `None` and `[]` are falsy. -/
def optListTruthy : Option (List String) → Bool
  | none => false
  | some l => !l.isEmpty

/-- `any(structured_data.values())` after `_extract_structured_data`
(controller lines 329–354): true iff at least one of the nineteen structured
fields is non-`None` and non-empty. -/
def has_structured_criteria (rq : URequest) : Bool :=
  optStrTruthy rq.class_id || optStrTruthy rq.class_name
  || optStrTruthy rq.hospital_code || optStrTruthy rq.hospital_name
  || optStrTruthy rq.archetype || optStrTruthy rq.hospital_region
  || optStrTruthy rq.birthdate || optStrTruthy rq.gender
  || optListTruthy rq.icd10 || optListTruthy rq.icd9
  || optStrTruthy rq.primary_doctor || optStrTruthy rq.admission_type
  || optStrTruthy rq.admission_date || optStrTruthy rq.discharge_date
  || optStrTruthy rq.anesthesia_doctor || optStrTruthy rq.anesthesia_type
  || optStrTruthy rq.surgery_nature || optStrTruthy rq.payer_type
  || optStrTruthy rq.payer_name

/-- `validate_unified_fields` (searchSchema.py lines 48–60): the request is
accepted by the schema when the query or one of the SIXTEEN listed structured
fields is truthy (`admission_date`, `discharge_date` and `surgery_nature` are
not in the validator's list). -/
def schema_accepts (rq : URequest) : Bool :=
  optStrTruthy rq.query
  || optStrTruthy rq.class_id || optStrTruthy rq.class_name
  || optStrTruthy rq.hospital_code || optStrTruthy rq.hospital_name
  || optStrTruthy rq.archetype || optStrTruthy rq.hospital_region
  || optStrTruthy rq.birthdate || optStrTruthy rq.gender
  || optListTruthy rq.icd10 || optListTruthy rq.icd9
  || optStrTruthy rq.primary_doctor || optStrTruthy rq.admission_type
  || optStrTruthy rq.anesthesia_doctor || optStrTruthy rq.anesthesia_type
  || optStrTruthy rq.payer_type || optStrTruthy rq.payer_name

/-- How a request fares before any stage query is issued. -/
inductive RequestOutcome where
  | rejectedBySchema : RequestOutcome
  | rejectedSimpleQuery : RequestOutcome
  | rejectedNoCriteria : RequestOutcome
  | cascadeStarted : RequestOutcome
  deriving DecidableEq, Repr

/-- The entry path of `unified_search_with_billing` (controller lines 12–36)
behind the pydantic validation: a schema-invalid request never reaches the
controller; a truthy `query` is rejected (`Simple query format not yet
supported`); an empty extracted structured dictionary is rejected (`No search
criteria provided`); otherwise `search_structured`, the 17-stage cascade, is
invoked. -/
def unified_search_outcome (rq : URequest) : RequestOutcome :=
  if !schema_accepts rq then .rejectedBySchema
  else if optStrTruthy rq.query then .rejectedSimpleQuery
  else if !has_structured_criteria rq then .rejectedNoCriteria
  else .cascadeStarted

/-- The all-`none` request. -/
def emptyRequest : URequest :=
  { query := none, class_id := none, class_name := none, hospital_code := none,
    hospital_name := none, archetype := none, hospital_region := none,
    birthdate := none, gender := none, icd10 := none, icd9 := none,
    primary_doctor := none, admission_type := none, admission_date := none,
    discharge_date := none, anesthesia_doctor := none, anesthesia_type := none,
    surgery_nature := none, payer_type := none, payer_name := none }

/-- C9 (counterexample): two requests with at least one non-empty structured
criteria field whose cascade nevertheless does not start: a request that also
carries a simple `query` string is rejected by the controller's query branch,
and a request whose only non-empty structured field is `admission_date` is
rejected by the schema validator (whose field list omits it). -/
theorem claim_C9_counterexample :
    (has_structured_criteria
        { emptyRequest with query := some "knee surgery", hospital_code := some "SHLV" }
        = true
      ∧ unified_search_outcome
          { emptyRequest with query := some "knee surgery", hospital_code := some "SHLV" }
          = RequestOutcome.rejectedSimpleQuery)
    ∧ (has_structured_criteria
        { emptyRequest with admission_date := some "2021-01-01 00:00:00" } = true
      ∧ unified_search_outcome
          { emptyRequest with admission_date := some "2021-01-01 00:00:00" }
          = RequestOutcome.rejectedBySchema) := by
  decide

/-- C9 (amended): a request with zero non-empty structured criteria fields is
always rejected before the cascade starts; and a request with no simple
query string that the schema validator accepts (at least one non-empty field
among the sixteen it checks — all of which are structured criteria fields)
does start the cascade. -/
theorem claim_C9_amended :
    (∀ rq : URequest, has_structured_criteria rq = false →
        unified_search_outcome rq ≠ RequestOutcome.cascadeStarted)
    ∧ (∀ rq : URequest, optStrTruthy rq.query = false → schema_accepts rq = true →
        unified_search_outcome rq = RequestOutcome.cascadeStarted) := by
  constructor
  · intro rq h
    unfold unified_search_outcome
    split
    · intro hc; cases hc
    · split
      · intro hc; cases hc
      · split
        · intro hc; cases hc
        · rename_i h3
          simp [h] at h3
  · intro rq hq hs
    have hstruct : has_structured_criteria rq = true := by
      simp only [schema_accepts, hq, Bool.false_or, Bool.or_eq_true] at hs
      simp only [has_structured_criteria, Bool.or_eq_true]
      tauto
    simp [unified_search_outcome, hs, hq, hstruct]
